import Mathlib

set_option maxHeartbeats 1000000

namespace ChoreTracker

/-!
Shallow embedding of the chore-tracker repository's verifiable core.

Service-worker logic is embedded from `src/sw.js` (cache name
`chore-tracker-v4`) and `src/unnamed/part_000` (cache name
`chore-tracker-v5`).  The sync server (`server/server.py`) and the
client sync agent (inside `index.html`) are not present under `src/`,
so those components are modelled from the specification, as marked in
their doc comments.
-/

/-! ## Service worker (src/sw.js and src/unnamed/part_000) -/

/-- The `CACHE_NAME` constant of `src/sw.js`. -/
def CACHE_NAME_v4 : String := "chore-tracker-v4"

/-- The `CACHE_NAME` constant of `src/unnamed/part_000`. -/
def CACHE_NAME_v5 : String := "chore-tracker-v5"

/-- The activate listener of both worker versions: from the list of existing
cache keys it deletes `keys.filter(k => k !== CACHE_NAME)`.  This function
returns the list of deleted cache keys. -/
def activateDeleted (cacheName : String) (keys : List String) : List String :=
  keys.filter (fun k => k != cacheName)

/-- A fetch event's request, as far as the two fetch listeners inspect it:
`event.request.mode === 'navigate'` and `new URL(event.request.url).pathname`. -/
structure SWRequest where
  navigate : Bool
  pathname : String
deriving DecidableEq

/-- JavaScript's `String.prototype.endsWith`, on the character list of the
string (kernel-evaluable). -/
def strEndsWith (s p : String) : Bool := p.data.isSuffixOf s.data

/-- The `isHTML` test of `src/unnamed/part_000`:
`url.pathname.endsWith('.html') || url.pathname === '/' || url.pathname === ''`. -/
def isHTMLReq (r : SWRequest) : Bool :=
  strEndsWith r.pathname ".html" || r.pathname == "/" || r.pathname == ""

/-- The fetch listener of `src/sw.js`:
`caches.match(event.request).then(cached => cached || fetch(event.request))`.
`cache` gives the result of `caches.match`; `network` gives the result of
`fetch` (`none` = network failure). -/
def fetchV4 {R : Type} (cache network : SWRequest → Option R) (r : SWRequest) :
    Option R :=
  match cache r with
  | some c => some c
  | none => network r

/-- The fetch listener of `src/unnamed/part_000`: network-first for
navigations and HTML paths (falling back to `caches.match` when `fetch`
fails), cache-first with network fallback for everything else. -/
def fetchV5 {R : Type} (cache network : SWRequest → Option R) (r : SWRequest) :
    Option R :=
  if r.navigate || isHTMLReq r then
    match network r with
    | some res => some res
    | none => cache r
  else
    match cache r with
    | some c => some c
    | none => network r

/-! ## Document Store and REST endpoint (modelled from the spec) -/

/-- Modelled from the spec: `server/server.py` is not under `src/`.  The
server-side Document Store holds at most one persisted Document: its opaque
body together with its stamped `_version` (spec section 4.1). -/
structure StoreState where
  stored : Option (String × Nat)
deriving DecidableEq

/-- Modelled from the spec: the store before any write has persisted. -/
def emptyStore : StoreState := ⟨none⟩

/-- Modelled from the spec: the `_version` currently stored; 0 when nothing
has been persisted, so that the first write is stamped 1. -/
def storeVersion (s : StoreState) : Nat :=
  match s.stored with
  | some d => d.2
  | none => 0

/-- Modelled from the spec: the initial default document body that `GET /data`
returns while the store is empty. -/
def defaultDoc : String := "\x7b\x7d"

/-- Modelled from the spec: `read() -> Document` returns the last persisted
Document, or the initial default document (at version 0) if none exists. -/
def storeRead (s : StoreState) : String × Nat :=
  match s.stored with
  | some d => d
  | none => (defaultDoc, 0)

/-- Modelled from the spec: `write(candidate)` replaces the whole Document,
stamps `_version = previous_version + 1` (1 on the first write), persists it
and returns the stamped Document. -/
def storeWrite (s : StoreState) (candidate : String) : StoreState × (String × Nat) :=
  let v := storeVersion s + 1
  (⟨some (candidate, v)⟩, (candidate, v))

/-- Modelled from the spec: the HTTP outcome of `PUT /data` — a success
carrying the stamped Document, or a client-error status. -/
inductive PutOutcome
  | ok (body : String) (version : Nat)
  | badRequest
deriving DecidableEq

/-- Modelled from the spec: the `PUT /data` handler.  `parse` stands for
decoding the raw request body as structured data.  On parse failure the
handler answers a client-error status and performs no write and no broadcast;
on success it writes and triggers the broadcast.  The returned `Bool` records
whether the broadcast notification was triggered. -/
def putData (parse : String → Option String) (s : StoreState) (raw : String) :
    StoreState × PutOutcome × Bool :=
  match parse raw with
  | none => (s, PutOutcome.badRequest, false)
  | some body =>
      let w := storeWrite s body
      (w.1, PutOutcome.ok w.2.1 w.2.2, true)

/-- Modelled from the spec: the stamped Documents returned by a sequence of
successful `PUT /data` calls, folded write-by-write through the store. -/
def runWrites (s : StoreState) : List String → List (String × Nat)
  | [] => []
  | b :: rest =>
      let w := storeWrite s b
      w.2 :: runWrites w.1 rest

/-- Modelled from the spec: the requests a store instance can serve —
a `PUT /data` (which may be malformed), a `GET /data`, and a `PUT /data`
whose persistence fails on the server side. -/
inductive ServerOp
  | put (raw : String)
  | get
  | putPersistFail (raw : String)
deriving DecidableEq

/-- Modelled from the spec: how one request changes the store.  A `GET`
changes nothing; a `PUT` goes through the endpoint handler; a persistence
failure fails the call without corrupting the previously persisted value
(writes are all-or-nothing, spec section 4.1). -/
def serverStep (parse : String → Option String) (s : StoreState) :
    ServerOp → StoreState
  | .put raw => (putData parse s raw).1
  | .get => s
  | .putPersistFail _ => s

/-- Modelled from the spec: the store after serving a sequence of requests. -/
def runServer (parse : String → Option String) (s : StoreState) :
    List ServerOp → StoreState
  | [] => s
  | op :: rest => runServer parse (serverStep parse s op) rest

/-! ## Client Sync Agent (modelled from the spec) -/

/-- Modelled from the spec: the connection states of the Client Sync Agent
state machine (spec section 4.4); the agent lives inside `index.html`, which
is not under `src/`. -/
inductive ConnState
  | offline
  | connecting
  | connected
  | disconnected
deriving DecidableEq

/-- Modelled from the spec: a Client Sync Agent instance — its connection
state, its local Document (local storage), and whether a pending Sync Intent
exists (at most one per client). -/
structure Agent where
  conn : ConnState
  localDoc : String
  pending : Bool
deriving DecidableEq

/-- Modelled from the spec: the discrete events driving the agent state
machine — a local mutation, push acknowledgment or failure, configuration,
handshake success or failure, connection drop, the retry timer, and a
remote change notification followed by a pull delivering `remote`. -/
inductive AgentEvent
  | mutate (b : String)
  | pushOk
  | pushFail
  | configure
  | handshakeOk
  | handshakeFail
  | connDrop
  | retryTimer
  | notifyPull (remote : String)
deriving DecidableEq

/-- Modelled from the spec: the network effect an agent step can issue —
a `PUT /data` carrying the full local Document. -/
inductive AgentEffect
  | pushReq (body : String)
deriving DecidableEq

/-- Modelled from the spec: one transition of the Client Sync Agent (spec
sections 4.4 and 7).  A mutation applies to local storage immediately and
marks a pending Sync Intent, cleared only by a push acknowledgment; when
Connected it also issues a PUT.  A push failure keeps the intent and drops
to Disconnected.  Re-entering Connected with a pending intent re-pushes the
local Document.  A pulled remote Document replaces local state only when no
intent is pending; otherwise the unpushed local Document is kept on top of
the pulled base and re-pushed (last-local-writer-wins). -/
def agentStep (a : Agent) : AgentEvent → Agent × Option AgentEffect
  | .mutate b =>
      let a2 : Agent := { a with localDoc := b, pending := true }
      if a.conn = .connected then (a2, some (.pushReq b)) else (a2, none)
  | .pushOk => ({ a with pending := false }, none)
  | .pushFail =>
      ({ a with conn := if a.conn = .connected then .disconnected else a.conn },
        none)
  | .configure =>
      ({ a with conn := if a.conn = .offline then .connecting else a.conn },
        none)
  | .handshakeOk =>
      if a.conn = .connecting then
        let a2 : Agent := { a with conn := .connected }
        if a.pending then (a2, some (.pushReq a.localDoc)) else (a2, none)
      else (a, none)
  | .handshakeFail =>
      ({ a with conn := if a.conn = .connecting then .disconnected else a.conn },
        none)
  | .connDrop =>
      ({ a with conn := if a.conn = .connected then .disconnected else a.conn },
        none)
  | .retryTimer =>
      ({ a with conn := if a.conn = .disconnected then .connecting else a.conn },
        none)
  | .notifyPull remote =>
      if a.pending then (a, some (.pushReq a.localDoc))
      else ({ a with localDoc := remote }, none)

/-- Modelled from the spec: the agent state after a sequence of events
(effects discarded). -/
def runAgent (a : Agent) : List AgentEvent → Agent
  | [] => a
  | e :: rest => runAgent (agentStep a e).1 rest

/-! ## Per-device fields (modelled from the spec) -/

/-- Modelled from the spec: a client device's full state — the shared
Document content plus the per-device, local-only fields (selected user and
theme), layered outside synchronization. -/
structure DeviceState where
  shared : String
  selectedUser : String
  theme : String
deriving DecidableEq

/-- Modelled from the spec: the payload a client pushes is the shared
Document content only; per-device fields are stripped from every push. -/
def pushPayload (c : DeviceState) : String := c.shared

/-- Modelled from the spec: adopting a pulled remote Document replaces the
shared content only; the device's per-device fields are restored unchanged. -/
def applyRemote (c : DeviceState) (remote : String) : DeviceState :=
  { c with shared := remote }

/-- Modelled from the spec: one full sync cycle — client `a` pushes its
payload, the store stamps and persists it, the change notification makes
client `b` pull and adopt the stored Document. -/
def syncCycle (a b : DeviceState) (s : StoreState) : DeviceState × StoreState :=
  let w := storeWrite s (pushPayload a)
  (applyRemote b (storeRead w.1).1, w.1)

/-! ## Broadcast Channel (modelled from the spec) -/

/-- Modelled from the spec: `notifyAll(excluding)` of the Broadcast Channel
(spec section 4.3).  Connections are identified by numbers.  The channel
walks the registered connections, skips the excluded originator, attempts a
send to each remaining connection (`sendOk c` tells whether the send to `c`
succeeds), catches any per-connection send failure and continues with the
rest.  The result lists the connections that received the notification. -/
def notifyAll (sendOk : Nat → Bool) (excluding : Option Nat) :
    List Nat → List Nat
  | [] => []
  | c :: rest =>
      if excluding = some c then notifyAll sendOk excluding rest
      else if sendOk c then c :: notifyAll sendOk excluding rest
      else notifyAll sendOk excluding rest

/-! ## Theorems -/

/-- C8: for every list of existing cache keys, the activate handler deletes
exactly those caches whose key differs from the worker's own `CACHE_NAME`
and never deletes the cache named `CACHE_NAME`, in both service-worker
versions (`chore-tracker-v4` in `src/sw.js`, `chore-tracker-v5` in
`src/unnamed/part_000`). -/
theorem activate_deletes_exactly_other_caches (keys : List String) (k : String) :
    (k ∈ activateDeleted CACHE_NAME_v4 keys ↔ k ∈ keys ∧ k ≠ CACHE_NAME_v4)
    ∧ (k ∈ activateDeleted CACHE_NAME_v5 keys ↔ k ∈ keys ∧ k ≠ CACHE_NAME_v5)
    ∧ CACHE_NAME_v4 ∉ activateDeleted CACHE_NAME_v4 keys
    ∧ CACHE_NAME_v5 ∉ activateDeleted CACHE_NAME_v5 keys := by
  simp [activateDeleted, List.mem_filter, bne_iff_ne]

/-- C9: the fetch listener of `src/sw.js` is cache-first — when the cache
holds a match the cached response is returned and the network result is
irrelevant (any network behaviour yields the same response); only when
there is no cached match does it fall back to the network fetch. -/
theorem fetchV4_cache_first {R : Type} (cache network : SWRequest → Option R)
    (r : SWRequest) :
    (∀ c, cache r = some c →
      fetchV4 cache network r = some c
      ∧ ∀ network2 : SWRequest → Option R, fetchV4 cache network2 r = some c)
    ∧ (cache r = none → fetchV4 cache network r = network r) := by
  refine ⟨fun c hc => ⟨?_, fun network2 => ?_⟩, fun hc => ?_⟩ <;>
    simp [fetchV4, hc]

/-- Witness for C9 at a concrete cache, network and request. -/
theorem fetchV4_cache_first_witness :
    fetchV4 (fun _ => some 7) (fun _ => some 9)
      ⟨false, "./icons/icon-192.png"⟩ = some (7 : Nat)
    ∧ fetchV4 (fun _ => none) (fun _ => some 9)
      ⟨false, "./icons/icon-192.png"⟩ = some (9 : Nat) :=
  ⟨((fetchV4_cache_first (fun _ => some 7) (fun _ => some 9)
      ⟨false, "./icons/icon-192.png"⟩).1 7 rfl).1,
   ((fetchV4_cache_first (fun _ => none) (fun _ => some 9)
      ⟨false, "./icons/icon-192.png"⟩).2 rfl)⟩

/-- C10: on every request that is not a navigation and whose URL pathname
does not end in `.html` and is neither `/` nor empty, the two
service-worker fetch handlers compute the same response, namely the cached
response when a cache match exists and otherwise the network response;
on navigation/HTML requests, `src/unnamed/part_000` is network-first with
cache fallback. -/
theorem fetch_versions_agree_off_html {R : Type}
    (cache network : SWRequest → Option R) (r : SWRequest) :
    (r.navigate = false → isHTMLReq r = false →
      fetchV5 cache network r = fetchV4 cache network r
      ∧ fetchV4 cache network r = (cache r).or (network r))
    ∧ ((r.navigate = true ∨ isHTMLReq r = true) →
      fetchV5 cache network r = (network r).or (cache r)) := by
  constructor
  · intro hn hh
    constructor
    · simp [fetchV5, fetchV4, hn, hh]
    · cases hc : cache r <;> simp [fetchV4, hc]
  · intro h
    have hcond : (r.navigate || isHTMLReq r) = true := by
      rcases h with h | h <;> simp [h]
    cases hnet : network r <;> simp [fetchV5, hcond, hnet]

/-- Witness for C10 at concrete caches, networks and requests: a font
request (non-HTML, non-navigation) gets the same cached answer from both
versions, and a navigation gets the network answer from part_000. -/
theorem fetch_versions_agree_off_html_witness :
    fetchV5 (fun _ => some 1) (fun _ => some 2)
      ⟨false, "/fonts/poppins-400.woff2"⟩
      = fetchV4 (fun _ => (some 1 : Option Nat)) (fun _ => some 2)
        ⟨false, "/fonts/poppins-400.woff2"⟩
    ∧ fetchV5 (fun _ => (some 1 : Option Nat)) (fun _ => some 2)
      ⟨true, "/index.html"⟩ = some 2 :=
  ⟨((fetch_versions_agree_off_html (fun _ => some 1) (fun _ => some 2)
      ⟨false, "/fonts/poppins-400.woff2"⟩).1 rfl (by decide)).1,
   (fetch_versions_agree_off_html (fun _ => some 1) (fun _ => some 2)
      ⟨true, "/index.html"⟩).2 (Or.inl rfl)⟩

/-- The version of the Document returned by `storeRead` is the stored
version. -/
lemma storeRead_version (s : StoreState) : (storeRead s).2 = storeVersion s := by
  cases h : s.stored <;> simp [storeRead, storeVersion, h]

/-- The `_version` stamped by the write at position `n` of a run of writes
exceeds the starting version by `n + 1`. -/
lemma runWrites_version (s : StoreState) (bodies : List String) (n : Nat)
    (h : n < bodies.length) :
    ((runWrites s bodies).getD n (defaultDoc, 0)).2 = storeVersion s + n + 1 := by
  induction bodies generalizing s n with
  | nil => simp at h
  | cons b rest ih =>
      cases n with
      | zero => simp [runWrites, storeWrite]
      | succ m =>
          have hm : m < rest.length := by simpa using h
          have := ih (storeWrite s b).1 m hm
          simp only [runWrites, List.getD_cons_succ] at this ⊢
          rw [this]
          simp [storeWrite, storeVersion]
          omega

/-- C1: starting from the empty store, the `_version` stamped on and
returned by the `n`-th successful write (0-indexed here: write number
`n + 1`) equals `n + 1`, so returned versions start at 1 and increase by
exactly 1 per call. -/
theorem put_version_counts_writes (bodies : List String) (n : Nat)
    (h : n < bodies.length) :
    ((runWrites emptyStore bodies).getD n (defaultDoc, 0)).2 = n + 1 := by
  have := runWrites_version emptyStore bodies n h
  simpa [emptyStore, storeVersion] using this

/-- Witness for C1: three writes from the empty store return versions
1, 2, 3. -/
theorem put_version_counts_writes_witness :
    ((runWrites emptyStore ["a", "b", "c"]).getD 0 (defaultDoc, 0)).2 = 1
    ∧ ((runWrites emptyStore ["a", "b", "c"]).getD 1 (defaultDoc, 0)).2 = 2
    ∧ ((runWrites emptyStore ["a", "b", "c"]).getD 2 (defaultDoc, 0)).2 = 3 :=
  ⟨put_version_counts_writes ["a", "b", "c"] 0 (by decide),
   put_version_counts_writes ["a", "b", "c"] 1 (by decide),
   put_version_counts_writes ["a", "b", "c"] 2 (by decide)⟩

/-- C2: after a successful `PUT /data` whose body parses to the Document
`body`, the endpoint returns `body` stamped with the next version, and a
`GET /data` issued immediately afterwards returns exactly that stamped
Document. -/
theorem get_after_put (parse : String → Option String) (s : StoreState)
    (raw body : String) (h : parse raw = some body) :
    (putData parse s raw).2.1 = PutOutcome.ok body (storeVersion s + 1)
    ∧ storeRead (putData parse s raw).1 = (body, storeVersion s + 1) := by
  simp [putData, h, storeWrite, storeRead]

/-- Witness for C2: a concrete PUT on the empty store, with the identity
parse, is read back unchanged at version 1. -/
theorem get_after_put_witness :
    (putData some emptyStore "doc1").2.1 = PutOutcome.ok "doc1" 1
    ∧ storeRead (putData some emptyStore "doc1").1 = ("doc1", 1) := by
  have := get_after_put some emptyStore "doc1" "doc1" rfl
  simpa [emptyStore, storeVersion] using this

/-- C3: a malformed `PUT /data` (body not parseable) answers a client-error
status, performs no write and no broadcast, and leaves the store — hence
the result of any subsequent `GET /data` — unchanged. -/
theorem malformed_put_no_side_effects (parse : String → Option String)
    (s : StoreState) (raw : String) (h : parse raw = none) :
    putData parse s raw = (s, PutOutcome.badRequest, false)
    ∧ storeRead (putData parse s raw).1 = storeRead s := by
  simp [putData, h]

/-- Witness for C3: a parse that rejects everything leaves a concrete
store untouched. -/
theorem malformed_put_no_side_effects_witness :
    putData (fun _ => none) ⟨some ("d", 4)⟩ "not json"
      = (⟨some ("d", 4)⟩, PutOutcome.badRequest, false)
    ∧ storeRead (putData (fun _ => none) ⟨some ("d", 4)⟩ "not json").1
      = storeRead ⟨some ("d", 4)⟩ :=
  malformed_put_no_side_effects (fun _ => none) ⟨some ("d", 4)⟩ "not json" rfl

/-- One server request never decreases the stored version. -/
lemma serverStep_version_mono (parse : String → Option String)
    (s : StoreState) (op : ServerOp) :
    storeVersion s ≤ storeVersion (serverStep parse s op) := by
  cases op with
  | put raw =>
      cases h : parse raw with
      | none => simp [serverStep, putData, h]
      | some body => simp [serverStep, putData, h, storeWrite, storeVersion]
  | get => simp [serverStep]
  | putPersistFail raw => simp [serverStep]

/-- C4: across any sequence of requests (successful or malformed PUTs,
GETs, persistence failures) the stored `_version` never decreases, so of
two successive `GET /data` calls to the same store instance the second
observes a version greater than or equal to the first. -/
theorem version_never_decreases (parse : String → Option String)
    (s : StoreState) (ops : List ServerOp) :
    (storeRead s).2 ≤ (storeRead (runServer parse s ops)).2 := by
  rw [storeRead_version, storeRead_version]
  induction ops generalizing s with
  | nil => simp [runServer]
  | cons op rest ih =>
      exact Nat.le_trans (serverStep_version_mono parse s op)
        (ih (serverStep parse s op))

/-- A pending Sync Intent survives every event other than a push
acknowledgment. -/
lemma agentStep_keeps_pending (a : Agent) (e : AgentEvent)
    (hp : a.pending = true) (he : e ≠ AgentEvent.pushOk) :
    (agentStep a e).1.pending = true := by
  cases e with
  | mutate b =>
      by_cases hc : a.conn = ConnState.connected <;> simp [agentStep, hc]
  | pushOk => exact absurd rfl he
  | pushFail => simpa [agentStep] using hp
  | configure => simpa [agentStep] using hp
  | handshakeOk =>
      by_cases hc : a.conn = ConnState.connecting <;>
        simp [agentStep, hc, hp]
  | handshakeFail => simpa [agentStep] using hp
  | connDrop => simpa [agentStep] using hp
  | retryTimer => simpa [agentStep] using hp
  | notifyPull remote => simp [agentStep, hp]

/-- C5: a local mutation always leaves a pending Sync Intent until it is
acknowledged: the mutation marks the intent, a push failure retains it,
no sequence of events free of push acknowledgments ever clears it (it is
never silently dropped), and when the agent re-enters Connected with a
pending intent the handshake step re-pushes the local Document. -/
theorem sync_intent_never_lost (a : Agent) (b : String)
    (evs : List AgentEvent) :
    (agentStep a (AgentEvent.mutate b)).1.pending = true
    ∧ (a.pending = true → (agentStep a AgentEvent.pushFail).1.pending = true)
    ∧ (a.pending = true → (∀ e ∈ evs, e ≠ AgentEvent.pushOk) →
        (runAgent a evs).pending = true)
    ∧ (a.pending = true → a.conn = ConnState.connecting →
        agentStep a AgentEvent.handshakeOk
          = ({ a with conn := ConnState.connected },
              some (AgentEffect.pushReq a.localDoc))) := by
  refine ⟨?_, ?_, ?_, ?_⟩
  · by_cases hc : a.conn = ConnState.connected <;> simp [agentStep, hc]
  · intro hp; simpa [agentStep] using hp
  · intro hp hno
    induction evs generalizing a with
    | nil => simpa [runAgent] using hp
    | cons e rest ih =>
        simp only [runAgent]
        exact ih (agentStep a e).1
          (agentStep_keeps_pending a e hp (hno e (by simp)))
          (fun e2 h2 => hno e2 (by simp [h2]))
  · intro hp hc
    simp [agentStep, hc, hp]

/-- Witness for C5: a concrete disconnected agent with a pending intent
keeps it through failures and drops, and re-pushes on handshake success. -/
theorem sync_intent_never_lost_witness :
    (agentStep ⟨ConnState.disconnected, "old", false⟩
        (AgentEvent.mutate "doc")).1.pending = true
    ∧ (agentStep ⟨ConnState.connecting, "doc", true⟩
        AgentEvent.pushFail).1.pending = true
    ∧ (runAgent ⟨ConnState.connecting, "doc", true⟩
        [AgentEvent.handshakeFail, AgentEvent.retryTimer]).pending = true
    ∧ agentStep ⟨ConnState.connecting, "doc", true⟩ AgentEvent.handshakeOk
        = (⟨ConnState.connected, "doc", true⟩,
            some (AgentEffect.pushReq "doc")) := by
  have h := sync_intent_never_lost ⟨ConnState.connecting, "doc", true⟩ "doc"
    [AgentEvent.handshakeFail, AgentEvent.retryTimer]
  refine ⟨(sync_intent_never_lost ⟨ConnState.disconnected, "old", false⟩
      "doc" []).1,
    h.2.1 rfl, h.2.2.1 rfl (by decide), h.2.2.2 rfl rfl⟩

/-- C6: per-device fields never cross a sync cycle: client B's state after
the cycle is unchanged if client A's selected user and theme change (two
runs differing only in A's per-device fields leave B identical), and B's
own selected user and theme survive the cycle untouched. -/
theorem per_device_fields_stay_local (sh su1 th1 su2 th2 : String)
    (b : DeviceState) (s : StoreState) :
    (syncCycle ⟨sh, su1, th1⟩ b s).1 = (syncCycle ⟨sh, su2, th2⟩ b s).1
    ∧ (syncCycle ⟨sh, su1, th1⟩ b s).1.selectedUser = b.selectedUser
    ∧ (syncCycle ⟨sh, su1, th1⟩ b s).1.theme = b.theme := by
  refine ⟨?_, ?_, ?_⟩ <;>
    simp [syncCycle, pushPayload, applyRemote, storeWrite, storeRead]

/-- The connections notified by the fan-out loop are exactly a filter of
the registered list. -/
lemma notifyAll_eq_filter (sendOk : Nat → Bool) (excluding : Option Nat)
    (conns : List Nat) :
    notifyAll sendOk excluding conns
      = conns.filter (fun c => decide (excluding ≠ some c) && sendOk c) := by
  induction conns with
  | nil => rfl
  | cons d rest ih =>
      by_cases hex : excluding = some d
      · subst hex
        simp [notifyAll, List.filter_cons, ih]
      · by_cases hs : sendOk d = true <;>
          simp [notifyAll, List.filter_cons, hex, hs, ih]

/-- A connection is notified exactly when it is registered, not excluded,
and its own send succeeds. -/
lemma mem_notifyAll (sendOk : Nat → Bool) (excluding : Option Nat)
    (conns : List Nat) (c : Nat) :
    c ∈ notifyAll sendOk excluding conns ↔
      c ∈ conns ∧ excluding ≠ some c ∧ sendOk c = true := by
  rw [notifyAll_eq_filter]
  simp [List.mem_filter]

/-- C7: `notifyAll` delivers the "data changed" notification to exactly the
registered connections other than the excluded originator whose own send
succeeds — so a send failure on one connection never prevents delivery to
any other connection: whether `c` is notified depends only on `c`'s own
send outcome, not on the failures of the rest. -/
theorem notifyAll_isolates_failures (sendOk : Nat → Bool)
    (excluding : Option Nat) (conns : List Nat) (c : Nat) :
    (c ∈ notifyAll sendOk excluding conns ↔
      c ∈ conns ∧ excluding ≠ some c ∧ sendOk c = true)
    ∧ (∀ sendOk2 : Nat → Bool, sendOk2 c = sendOk c →
        (c ∈ notifyAll sendOk2 excluding conns ↔
          c ∈ notifyAll sendOk excluding conns)) := by
  refine ⟨mem_notifyAll sendOk excluding conns c, fun sendOk2 hsame => ?_⟩
  rw [mem_notifyAll, mem_notifyAll, hsame]

/-- Witness for C7: with connections 1, 2, 3, originator 1 excluded and the
send to 2 failing, connection 3 is still notified, under either send
behaviour agreeing on 3. -/
theorem notifyAll_isolates_failures_witness :
    (3 ∈ notifyAll (fun c => c != 2) (some 1) [1, 2, 3] ↔
      3 ∈ [1, 2, 3] ∧ some 1 ≠ some 3 ∧ (3 != 2) = true)
    ∧ (3 ∈ notifyAll (fun _ => true) (some 1) [1, 2, 3] ↔
        3 ∈ notifyAll (fun c => c != 2) (some 1) [1, 2, 3]) :=
  ⟨(notifyAll_isolates_failures (fun c => c != 2) (some 1) [1, 2, 3] 3).1,
   (notifyAll_isolates_failures (fun c => c != 2) (some 1) [1, 2, 3] 3).2
     (fun _ => true) (by decide)⟩

end ChoreTracker
